import Mathlib

set_option maxHeartbeats 1000000

/-!
Shallow embedding of the environment-configuration core of the
ql-algo-trading-platform repository (src/config/environments.py,
src/infrastructure/app.py, src/infrastructure/constructs/vpc_construct.py),
together with theorems settling the specification claims about it.

Python dictionaries are embedded as insertion-ordered association lists,
Python ints as Lean Int, optional strings as Option String.  The process
environment (os.environ) is passed explicitly as a function from variable
names to optional values.
-/

/-- The process environment (os.environ): a map from variable names to values. -/
abbrev ProcEnv := String → Option String

/-- Python str.endswith, on the character lists of the strings. -/
def endswith (s suffixStr : String) : Bool :=
  List.isSuffixOf suffixStr.data s.data

/-- Digits parsed as a number, for reading a CIDR prefix length off a string. -/
def parseDigits (cs : List Char) : Option Nat :=
  if cs ≠ [] ∧ cs.all Char.isDigit then
    some (cs.foldl (fun n c => 10 * n + (c.toNat - 48)) 0)
  else none

/-- Prefix length of a CIDR string such as "10.0.0.0/16" (the digits after the
slash); used to state the claims about address-block prefix lengths. -/
def cidrPrefixLen (s : String) : Option Nat :=
  if s.data.contains '/' then
    parseDigits ((s.data.reverse.takeWhile (fun c => c ≠ '/')).reverse)
  else none

/-- Supported deployment environments (class Environment(Enum)). -/
inductive Environment
  | DEV
  | STAGING
  | PROD
deriving DecidableEq

/-- Environment.value: the string value of each enum member. -/
def Environment.value : Environment → String
  | .DEV => "dev"
  | .STAGING => "staging"
  | .PROD => "prod"

/-- NetworkingConfig dataclass. -/
structure NetworkingConfig where
  vpc_cidr : String
  max_azs : Int
  enable_nat_gateway : Bool
  enable_dns_hostnames : Bool
  enable_dns_support : Bool
  enable_flow_logs : Bool
deriving DecidableEq

/-- SecurityConfig dataclass. -/
structure SecurityConfig where
  enable_waf : Bool
  enable_shield : Bool
  enable_strict_nacls : Bool
  enable_vpc_endpoints : Bool
  enable_encryption_at_rest : Bool
  enable_encryption_in_transit : Bool
  kms_key_rotation : Bool
deriving DecidableEq

/-- MonitoringConfig dataclass. -/
structure MonitoringConfig where
  log_retention_days : Int
  enable_detailed_monitoring : Bool
  enable_xray_tracing : Bool
  enable_enhanced_monitoring : Bool
  alarm_notification_email : Option String
  enable_cost_alerts : Bool
deriving DecidableEq

/-- ResourceConfig dataclass. -/
structure ResourceConfig where
  lambda_memory_size : Int
  lambda_timeout : Int
  ecs_cpu : Int
  ecs_memory : Int
  rds_instance_class : String
  rds_allocated_storage : Int
  elasticache_node_type : String
deriving DecidableEq

/-- ComplianceConfig dataclass. -/
structure ComplianceConfig where
  data_residency_region : String
  enable_audit_logging : Bool
  backup_retention_days : Int
  enable_cross_region_backup : Bool
  enable_point_in_time_recovery : Bool
  enable_deletion_protection : Bool
deriving DecidableEq

/-- CostOptimizationConfig dataclass. -/
structure CostOptimizationConfig where
  enable_spot_instances : Bool
  enable_scheduled_scaling : Bool
  enable_lifecycle_policies : Bool
  enable_resource_right_sizing : Bool
  backup_lifecycle_transition_days : Int
deriving DecidableEq

/-- EnvironmentConfig dataclass (complete environment configuration).
Dictionaries are insertion-ordered association lists, as in Python. -/
structure EnvironmentConfig where
  env_name : String
  aws_account : Option String
  aws_region : String
  networking : NetworkingConfig
  security : SecurityConfig
  monitoring : MonitoringConfig
  resources : ResourceConfig
  compliance : ComplianceConfig
  cost_optimization : CostOptimizationConfig
  resource_tags : List (String × String)
  feature_flags : List (String × Bool)
  custom_parameters : List (String × String)
deriving DecidableEq

/-- EnvironmentConfig.is_production property. -/
def EnvironmentConfig.is_production (c : EnvironmentConfig) : Bool :=
  c.env_name == "prod"

/-- EnvironmentConfig.is_development property. -/
def EnvironmentConfig.is_development (c : EnvironmentConfig) : Bool :=
  c.env_name == "dev"

/-- The default resource-tag table installed by EnvironmentConfig.__post_init__
when the supplied resource_tags mapping is empty. -/
def defaultResourceTags (env_name aws_region : String) : List (String × String) :=
  [("Project", "OptionsStrategyPlatform"),
   ("Environment", env_name),
   ("Owner", "platform-team"),
   ("CostCenter", "trading-systems"),
   ("DataResidency", "india"),
   ("ManagedBy", "CDK"),
   ("Region", aws_region)]

/-- The default feature-flag table installed by EnvironmentConfig.__post_init__
when the supplied feature_flags mapping is empty. -/
def defaultFeatureFlags (env_name : String) : List (String × Bool) :=
  [("enable_api_caching", ["staging", "prod"].contains env_name),
   ("enable_multi_az", env_name == "prod"),
   ("enable_auto_scaling", ["staging", "prod"].contains env_name),
   ("enable_blue_green_deployment", env_name == "prod"),
   ("enable_canary_deployment", env_name == "prod"),
   ("enable_circuit_breaker", true),
   ("enable_rate_limiting", true)]

/-- Construction of an EnvironmentConfig followed by __post_init__: the default
resource tags and feature flags are installed exactly when the corresponding
supplied mapping is empty (Python `if not self.resource_tags`). -/
def mkEnvironmentConfig (env_name : String) (aws_account : Option String)
    (aws_region : String) (networking : NetworkingConfig)
    (security : SecurityConfig) (monitoring : MonitoringConfig)
    (resources : ResourceConfig) (compliance : ComplianceConfig)
    (cost_optimization : CostOptimizationConfig)
    (resource_tags : List (String × String))
    (feature_flags : List (String × Bool))
    (custom_parameters : List (String × String)) : EnvironmentConfig :=
  EnvironmentConfig.mk env_name aws_account aws_region networking security
    monitoring resources compliance cost_optimization
    (if resource_tags.isEmpty then defaultResourceTags env_name aws_region
     else resource_tags)
    (if feature_flags.isEmpty then defaultFeatureFlags env_name
     else feature_flags)
    custom_parameters

/-- _get_dev_config: development environment configuration.  Dataclass fields
the source leaves to their defaults are passed explicitly with those default
values. -/
def _get_dev_config (pe : ProcEnv) : EnvironmentConfig :=
  mkEnvironmentConfig "dev" (pe "CDK_DEFAULT_ACCOUNT") "ap-south-1"
    (NetworkingConfig.mk "10.0.0.0/16" 2 true true true true)
    (SecurityConfig.mk false false false false true true true)
    (MonitoringConfig.mk 7 false true false (pe "DEV_NOTIFICATION_EMAIL") true)
    (ResourceConfig.mk 512 30 256 512 "db.t3.micro" 20 "cache.t3.micro")
    (ComplianceConfig.mk "ap-south-1" true 7 false true false)
    (CostOptimizationConfig.mk true false true false 30)
    []
    []
    [("debug_mode", "true"), ("log_level", "DEBUG"), ("enable_test_data", "true")]

/-- _get_staging_config: staging environment configuration. -/
def _get_staging_config (pe : ProcEnv) : EnvironmentConfig :=
  mkEnvironmentConfig "staging" (pe "CDK_DEFAULT_ACCOUNT") "ap-south-1"
    (NetworkingConfig.mk "10.1.0.0/16" 2 true true true true)
    (SecurityConfig.mk true false true true true true true)
    (MonitoringConfig.mk 30 true true true (pe "STAGING_NOTIFICATION_EMAIL") true)
    (ResourceConfig.mk 1024 60 512 1024 "db.t3.small" 50 "cache.t3.small")
    (ComplianceConfig.mk "ap-south-1" true 30 true true true)
    (CostOptimizationConfig.mk false true true true 30)
    []
    []
    [("debug_mode", "false"), ("log_level", "INFO"), ("enable_test_data", "false"),
     ("cache_ttl", "3600")]

/-- _get_prod_config: production environment configuration. -/
def _get_prod_config (pe : ProcEnv) : EnvironmentConfig :=
  mkEnvironmentConfig "prod" (pe "CDK_DEFAULT_ACCOUNT") "ap-south-1"
    (NetworkingConfig.mk "10.2.0.0/16" 3 true true true true)
    (SecurityConfig.mk true true true true true true true)
    (MonitoringConfig.mk 90 true true true (pe "PROD_NOTIFICATION_EMAIL") true)
    (ResourceConfig.mk 2048 300 2048 4096 "db.r5.large" 200 "cache.r5.large")
    (ComplianceConfig.mk "ap-south-1" true 90 true true true)
    (CostOptimizationConfig.mk false true true true 30)
    []
    []
    [("debug_mode", "false"), ("log_level", "WARN"), ("enable_test_data", "false"),
     ("cache_ttl", "7200"), ("max_retry_attempts", "3"),
     ("circuit_breaker_threshold", "50")]

/-- _ENVIRONMENT_CONFIGS: the environment configuration registry, keyed by the
enum values, in source order. -/
def ENVIRONMENT_CONFIGS : List (String × (ProcEnv → EnvironmentConfig)) :=
  [(Environment.DEV.value, _get_dev_config),
   (Environment.STAGING.value, _get_staging_config),
   (Environment.PROD.value, _get_prod_config)]

/-- get_all_environments: list of all supported environment identifiers. -/
def get_all_environments : List String :=
  ENVIRONMENT_CONFIGS.map Prod.fst

/-- Python str() of a list of strings, as used in the unsupported-environment
error message. -/
def pyListRepr (xs : List String) : String :=
  let q := (Char.ofNat 39).toString
  "[" ++ String.intercalate ", " (xs.map (fun s => q ++ s ++ q)) ++ "]"

/-- The environment name actually looked up by get_environment_config: the
supplied identifier, or else the CDK_ENVIRONMENT process variable, defaulting
to "dev". -/
def resolveName (pe : ProcEnv) (env_name : Option String) : String :=
  match env_name with
  | none => (pe "CDK_ENVIRONMENT").getD "dev"
  | some n => n

/-- get_environment_config: resolve an environment identifier to its
configuration; unknown identifiers raise ValueError with a message naming the
supported environments (the Except.error case). -/
def get_environment_config (pe : ProcEnv) (env_name : Option String) :
    Except String EnvironmentConfig :=
  match ENVIRONMENT_CONFIGS.lookup (resolveName pe env_name) with
  | some f => .ok (f pe)
  | none =>
      .error ("Unsupported environment: " ++ resolveName pe env_name ++ ". " ++
        "Supported environments: " ++ pyListRepr get_all_environments)

/-- Finding for the region rule (f-string including the offending region). -/
def regionFinding (config : EnvironmentConfig) : String :=
  "AWS region must be ap-south-1 for Indian market compliance, got: " ++
    config.aws_region

/-- Finding for the VPC CIDR rule (f-string including the offending CIDR). -/
def cidrFinding (config : EnvironmentConfig) : String :=
  "VPC CIDR should use /16 subnet for proper IP allocation, got: " ++
    config.networking.vpc_cidr

/-- Finding for the production zone-count rule. -/
def azsFinding : String :=
  "Production environment should use at least 3 AZs for HA"

/-- Finding for the production WAF rule. -/
def wafFinding : String :=
  "Production environment should enable WAF"

/-- Finding for the production deletion-protection rule. -/
def deletionFinding : String :=
  "Production environment should enable deletion protection"

/-- Finding for the production log-retention rule. -/
def logRetentionFinding : String :=
  "Production environment should retain logs for at least 90 days"

/-- Finding for the production Lambda memory rule. -/
def lambdaMemoryFinding : String :=
  "Production Lambda functions should have at least 1024MB memory"

/-- validate_environment_config: validate a configuration and return the list
of validation errors (empty if valid), mirroring the sequential appends of the
source. -/
def validate_environment_config (config : EnvironmentConfig) : List String :=
  let errors : List String := []
  let errors := if config.aws_region != "ap-south-1" then
      errors ++ [regionFinding config] else errors
  let errors := if !endswith config.networking.vpc_cidr "/16" then
      errors ++ [cidrFinding config] else errors
  let errors := if config.is_production then
      let errors := if config.networking.max_azs < 3 then
          errors ++ [azsFinding] else errors
      let errors := if !config.security.enable_waf then
          errors ++ [wafFinding] else errors
      let errors := if !config.compliance.enable_deletion_protection then
          errors ++ [deletionFinding] else errors
      let errors := if config.monitoring.log_retention_days < 90 then
          errors ++ [logRetentionFinding] else errors
      errors
    else errors
  let errors := if config.env_name = "prod" ∧
      config.resources.lambda_memory_size < 1024 then
      errors ++ [lambdaMemoryFinding] else errors
  errors

/-- The validator findings as a concatenation of per-rule blocks, in the fixed
rule order of the source (a restructuring of validate_environment_config used
by the proofs). -/
def validationBlocks (config : EnvironmentConfig) : List String :=
  (if config.aws_region != "ap-south-1" then [regionFinding config] else []) ++
  (if !endswith config.networking.vpc_cidr "/16" then [cidrFinding config] else []) ++
  (if config.is_production then
    (if config.networking.max_azs < 3 then [azsFinding] else []) ++
    (if !config.security.enable_waf then [wafFinding] else []) ++
    (if !config.compliance.enable_deletion_protection then [deletionFinding] else []) ++
    (if config.monitoring.log_retention_days < 90 then [logRetentionFinding] else [])
   else []) ++
  (if config.env_name = "prod" ∧ config.resources.lambda_memory_size < 1024 then
    [lambdaMemoryFinding] else [])

/-- The applicable validation rules for a configuration, in the fixed source
order: each entry pairs the violation condition with the finding the rule
contributes.  This is the specification-side reading of §4.2 (independent
predicate checks, one finding per violated rule), to be compared with
validate_environment_config. -/
def validationRuleTable (config : EnvironmentConfig) : List (Bool × String) :=
  [(config.aws_region != "ap-south-1", regionFinding config),
   (!endswith config.networking.vpc_cidr "/16", cidrFinding config)] ++
  (if config.is_production then
    [(decide (config.networking.max_azs < 3), azsFinding),
     (!config.security.enable_waf, wafFinding),
     (!config.compliance.enable_deletion_protection, deletionFinding),
     (decide (config.monitoring.log_retention_days < 90), logRetentionFinding)]
   else []) ++
  [(config.env_name == "prod" && decide (config.resources.lambda_memory_size < 1024),
    lambdaMemoryFinding)]

/-- The findings contributed by a rule table: one finding per violated rule,
in table order. -/
def findingsOf (rules : List (Bool × String)) : List String :=
  rules.filterMap (fun p => if p.1 then some p.2 else none)

/-- Number of violated rules in a rule table. -/
def violatedCount (rules : List (Bool × String)) : Nat :=
  (rules.filter (fun p => p.1)).length

/-- validate_environment_config with the validated configuration threaded
through as explicit state, mirroring the imperative body statement by
statement; the final state is what the caller observes after validation. -/
def validateSt (config : EnvironmentConfig) : List String × EnvironmentConfig :=
  Id.run do
    let mut errors : List String := []
    if config.aws_region != "ap-south-1" then
      errors := errors ++ [regionFinding config]
    if !endswith config.networking.vpc_cidr "/16" then
      errors := errors ++ [cidrFinding config]
    if config.is_production then
      if config.networking.max_azs < 3 then
        errors := errors ++ [azsFinding]
      if !config.security.enable_waf then
        errors := errors ++ [wafFinding]
      if !config.compliance.enable_deletion_protection then
        errors := errors ++ [deletionFinding]
      if config.monitoring.log_retention_days < 90 then
        errors := errors ++ [logRetentionFinding]
    if config.env_name = "prod" ∧ config.resources.lambda_memory_size < 1024 then
      errors := errors ++ [lambdaMemoryFinding]
    return (errors, config)

/-- The tag set applied to the VPC by OptionsStrategyVPC._apply_vpc_tags:
the standard tags_config table followed by the environment-specific tags. -/
def vpcAppliedTags (env_name : String) : List (String × String) :=
  [("Name", "options-strategy-vpc-" ++ env_name),
   ("Environment", env_name),
   ("Project", "OptionsStrategyPlatform"),
   ("Component", "Networking"),
   ("DataResidency", "india"),
   ("Compliance", "indian-market-data"),
   ("CostCenter", "trading-systems"),
   ("Owner", "platform-team"),
   ("ManagedBy", "CDK"),
   ("Region", "ap-south-1")] ++
  (if env_name == "prod" then
    [("Criticality", "High"), ("BackupRequired", "True")]
   else if env_name == "staging" then
    [("Criticality", "Medium"), ("BackupRequired", "False")]
   else
    [("Criticality", "Low"), ("BackupRequired", "False"), ("AutoShutdown", "True")])

/-- Modelled from the spec: the error taxonomy of the OutputRegistry (§4.3,
§7).  The registry itself is not implemented under src/ (the nearest code is
the Parameter Store write loop in src/infrastructure/app.py). -/
inductive RegistryError
  | DuplicateOutputError : String → String → RegistryError
  | MissingOutputError : String → String → RegistryError
deriving DecidableEq

/-- Modelled from the spec: the OutputRegistry, a run-scoped key/value store
keyed by (module_name, logical_name) pairs (§4.3). -/
abbrev OutputRegistry := List ((String × String) × String)

/-- Modelled from the spec: OutputRegistry.write — fatal with
DuplicateOutputError if the same (module_name, logical_name) pair is written
twice within a run (§4.3). -/
def OutputRegistry.write (r : OutputRegistry)
    (module_name logical_name value : String) :
    Except RegistryError OutputRegistry :=
  if r.any (fun e => e.1 == (module_name, logical_name)) then
    .error (.DuplicateOutputError module_name logical_name)
  else
    .ok (r ++ [((module_name, logical_name), value)])

/-- Modelled from the spec: OutputRegistry.read — fatal with
MissingOutputError if the path has not yet been written (§4.3). -/
def OutputRegistry.read (r : OutputRegistry) (module_name logical_name : String) :
    Except RegistryError String :=
  match r.find? (fun e => e.1 == (module_name, logical_name)) with
  | some e => .ok e.2
  | none => .error (.MissingOutputError module_name logical_name)

/-- The cloud-assigned resource identifiers a synthesis run reports back
(VPC id, subnet ids, security-group ids, role ARNs, topic ARNs); inputs to
the Parameter Store write step of src/infrastructure/app.py. -/
structure ResourceIds where
  vpc_id : String
  public_subnet_ids : List String
  private_subnet_ids : List String
  isolated_subnet_ids : List String
  alb_sg_id : String
  app_sg_id : String
  lambda_sg_id : String
  database_sg_id : String
  lambda_role_arn : String
  ecs_execution_role_arn : String
  ecs_task_role_arn : String
  critical_alerts_topic_arn : String
  operational_alerts_topic_arn : String
  trading_notifications_topic_arn : String
deriving DecidableEq

/-- Python ",".join. -/
def joinComma (xs : List String) : String :=
  String.intercalate "," xs

/-- infrastructure_params of
OptionsStrategyPlatformStack._create_configuration_infrastructure: the
(name, value) pairs written to the Parameter Store, in source order. -/
def infrastructure_params (c : EnvironmentConfig) (ids : ResourceIds) :
    List (String × String) :=
  [("vpc/id", ids.vpc_id),
   ("vpc/cidr", c.networking.vpc_cidr),
   ("subnets/public", joinComma ids.public_subnet_ids),
   ("subnets/private", joinComma ids.private_subnet_ids),
   ("subnets/isolated", joinComma ids.isolated_subnet_ids),
   ("security-groups/alb", ids.alb_sg_id),
   ("security-groups/app", ids.app_sg_id),
   ("security-groups/lambda", ids.lambda_sg_id),
   ("security-groups/database", ids.database_sg_id),
   ("iam/lambda-role-arn", ids.lambda_role_arn),
   ("iam/ecs-execution-role-arn", ids.ecs_execution_role_arn),
   ("iam/ecs-task-role-arn", ids.ecs_task_role_arn),
   ("sns/critical-alerts-topic", ids.critical_alerts_topic_arn),
   ("sns/operational-alerts-topic", ids.operational_alerts_topic_arn),
   ("sns/trading-notifications-topic", ids.trading_notifications_topic_arn)]

/-- The full Parameter Store content a synthesis run writes: each parameter
at path /options-strategy/{environment}/{name}. -/
def parameterStoreEntries (c : EnvironmentConfig) (ids : ResourceIds) :
    List (String × String) :=
  (infrastructure_params c ids).map
    (fun p => ("/options-strategy/" ++ c.env_name ++ "/" ++ p.1, p.2))

/-- The process-environment variables read during configuration resolution. -/
def envReadKeys : List String :=
  ["CDK_ENVIRONMENT", "CDK_DEFAULT_ACCOUNT", "DEV_NOTIFICATION_EMAIL",
   "STAGING_NOTIFICATION_EMAIL", "PROD_NOTIFICATION_EMAIL"]

/-- A configuration violating the region rule, for the validator witnesses. -/
def badRegionConfig : EnvironmentConfig :=
  mkEnvironmentConfig "dev" none "us-east-1"
    (NetworkingConfig.mk "10.0.0.0/16" 2 true true true true)
    (SecurityConfig.mk false false false false true true true)
    (MonitoringConfig.mk 7 false true false none true)
    (ResourceConfig.mk 512 30 256 512 "db.t3.micro" 20 "cache.t3.micro")
    (ComplianceConfig.mk "ap-south-1" true 7 false true false)
    (CostOptimizationConfig.mk true false true false 30)
    [] [] []

/-- A production configuration with zone count 2, for the boundary witness. -/
def prodAzs2Config : EnvironmentConfig :=
  mkEnvironmentConfig "prod" none "ap-south-1"
    (NetworkingConfig.mk "10.2.0.0/16" 2 true true true true)
    (SecurityConfig.mk true true true true true true true)
    (MonitoringConfig.mk 90 true true true none true)
    (ResourceConfig.mk 2048 300 2048 4096 "db.r5.large" 200 "cache.r5.large")
    (ComplianceConfig.mk "ap-south-1" true 90 true true true)
    (CostOptimizationConfig.mk false true true true 30)
    [] [] []

/-- The same production configuration with zone count 3. -/
def prodAzs3Config : EnvironmentConfig :=
  mkEnvironmentConfig "prod" none "ap-south-1"
    (NetworkingConfig.mk "10.2.0.0/16" 3 true true true true)
    (SecurityConfig.mk true true true true true true true)
    (MonitoringConfig.mk 90 true true true none true)
    (ResourceConfig.mk 2048 300 2048 4096 "db.r5.large" 200 "cache.r5.large")
    (ComplianceConfig.mk "ap-south-1" true 90 true true true)
    (CostOptimizationConfig.mk false true true true 30)
    [] [] []

/-- A sample process environment (for the determinism witness). -/
def peSampleA : ProcEnv :=
  fun k => if k == "HOME" then some "/home/alpha" else none

/-- A second sample process environment differing from the first only on a
variable the configuration code never reads. -/
def peSampleB : ProcEnv :=
  fun k => if k == "HOME" then some "/home/beta" else none

/-- Sample resource identifiers (for the determinism witness). -/
def sampleIds : ResourceIds :=
  ResourceIds.mk "vpc-1" ["subnet-a"] ["subnet-b"] ["subnet-c"]
    "sg-alb" "sg-app" "sg-lambda" "sg-db"
    "arn:role-lambda" "arn:role-ecs-exec" "arn:role-ecs-task"
    "arn:topic-critical" "arn:topic-operational" "arn:topic-trading"

theorem validate_eq_blocks (config : EnvironmentConfig) :
    validate_environment_config config = validationBlocks config := by
  unfold validate_environment_config validationBlocks
  split_ifs <;> rfl

theorem findingsOf_length (rules : List (Bool × String)) :
    (findingsOf rules).length = violatedCount rules := by
  induction rules with
  | nil => rfl
  | cons p ps ih =>
      cases hp : p.1 <;> simp [findingsOf, violatedCount, List.filterMap_cons, hp] <;>
        simpa [findingsOf, violatedCount] using ih

theorem validate_eq_findingsOf (config : EnvironmentConfig) :
    validate_environment_config config = findingsOf (validationRuleTable config) := by
  rw [validate_eq_blocks]
  unfold validationBlocks validationRuleTable findingsOf
  simp only [List.filterMap_append, List.filterMap_cons, List.filterMap_nil,
    decide_eq_true_eq, Bool.and_eq_true, beq_iff_eq, apply_ite (List.filterMap _)]
  split_ifs <;> simp_all

theorem region_finding_first (config : EnvironmentConfig)
    (h : config.aws_region ≠ "ap-south-1") :
    (validate_environment_config config).head? = some (regionFinding config) := by
  rw [validate_eq_blocks]
  unfold validationBlocks
  have hb : (config.aws_region != "ap-south-1") = true := by simpa using h
  rw [if_pos hb]
  rfl

theorem mem_ite_singleton {p : Prop} [Decidable p] (a b : String) :
    (a ∈ (if p then [b] else ([] : List String))) ↔ p ∧ a = b := by
  split_ifs with hp <;> simp [hp]

theorem azs_ne_regionFinding (c : EnvironmentConfig) :
    azsFinding ≠ regionFinding c := by
  intro hx
  have h1 : azsFinding.length = 55 := by decide
  have h2 : ("AWS region must be ap-south-1 for Indian market compliance, got: " :
      String).length = 65 := by decide
  have h3 := congrArg String.length hx
  rw [regionFinding, String.length_append, h1, h2] at h3
  omega

theorem azs_ne_cidrFinding (c : EnvironmentConfig) :
    azsFinding ≠ cidrFinding c := by
  intro hx
  have h1 : azsFinding.length = 55 := by decide
  have h2 : ("VPC CIDR should use /16 subnet for proper IP allocation, got: " :
      String).length = 62 := by decide
  have h3 := congrArg String.length hx
  rw [cidrFinding, String.length_append, h1, h2] at h3
  omega

theorem validateSt_eq (c : EnvironmentConfig) :
    validateSt c = (validate_environment_config c, c) := by
  unfold validateSt validate_environment_config
  split_ifs <;> rfl

/-- C1: for every environment identifier in the closed set {dev, staging,
prod}, get_environment_config returns an EnvironmentConfig whose aws_region
is "ap-south-1" and whose networking.vpc_cidr has prefix length 16. -/
theorem resolve_returns_region_and_cidr (pe : ProcEnv) (e : String)
    (he : e ∈ ["dev", "staging", "prod"]) :
    ∃ c, get_environment_config pe (some e) = .ok c ∧
      c.aws_region = "ap-south-1" ∧
      cidrPrefixLen c.networking.vpc_cidr = some 16 := by
  fin_cases he
  · exact ⟨_get_dev_config pe, rfl, rfl, rfl⟩
  · exact ⟨_get_staging_config pe, rfl, rfl, rfl⟩
  · exact ⟨_get_prod_config pe, rfl, rfl, rfl⟩

theorem resolve_returns_region_and_cidr_witness :
    "prod" ∈ ["dev", "staging", "prod"] ∧
    ∃ c, get_environment_config (fun _ => none) (some "prod") = .ok c ∧
      c.aws_region = "ap-south-1" ∧
      cidrPrefixLen c.networking.vpc_cidr = some 16 :=
  ⟨by decide, resolve_returns_region_and_cidr (fun _ => none) "prod" (by decide)⟩

/-- C2: validate_environment_config applied to the configuration returned by
get_environment_config "prod" returns an empty list of findings. -/
theorem prod_default_config_valid (pe : ProcEnv) :
    ∃ c, get_environment_config pe (some "prod") = .ok c ∧
      validate_environment_config c = [] :=
  ⟨_get_prod_config pe, rfl, rfl⟩

/-- C3: the validator runs every applicable rule without short-circuiting and
returns exactly one finding per violated rule, in the fixed rule order, with
the region finding first when present: the findings list is exactly the
per-rule findings of the rule table (so its length is the number of violated
rules). -/
theorem validator_one_finding_per_violated_rule (c : EnvironmentConfig) :
    validate_environment_config c = findingsOf (validationRuleTable c) ∧
    (validate_environment_config c).length = violatedCount (validationRuleTable c) ∧
    (c.aws_region ≠ "ap-south-1" →
      (validate_environment_config c).head? = some (regionFinding c)) := by
  refine ⟨validate_eq_findingsOf c, ?_, fun h => region_finding_first c h⟩
  rw [validate_eq_findingsOf c, findingsOf_length]

theorem validator_one_finding_per_violated_rule_witness :
    badRegionConfig.aws_region ≠ "ap-south-1" ∧
    validate_environment_config badRegionConfig =
      findingsOf (validationRuleTable badRegionConfig) ∧
    (validate_environment_config badRegionConfig).length =
      violatedCount (validationRuleTable badRegionConfig) ∧
    (validate_environment_config badRegionConfig).head? =
      some (regionFinding badRegionConfig) := by
  have h := validator_one_finding_per_violated_rule badRegionConfig
  exact ⟨by decide, h.1, h.2.1, h.2.2 (by decide)⟩

/-- C4: on a "prod" configuration, the zone-count finding is present exactly
when the zone count is below 3 (boundary at the ≥ 3 threshold; in particular
present at zone count 2 and absent at zone count 3). -/
theorem prod_zone_count_boundary (c : EnvironmentConfig)
    (h : c.env_name = "prod") :
    azsFinding ∈ validate_environment_config c ↔ c.networking.max_azs < 3 := by
  rw [validate_eq_blocks]
  unfold validationBlocks
  have hprod : c.is_production = true := by
    simp [EnvironmentConfig.is_production, h]
  have hne1 := azs_ne_regionFinding c
  have hne2 := azs_ne_cidrFinding c
  have hne3 : azsFinding ≠ wafFinding := by decide
  have hne4 : azsFinding ≠ deletionFinding := by decide
  have hne5 : azsFinding ≠ logRetentionFinding := by decide
  have hne6 : azsFinding ≠ lambdaMemoryFinding := by decide
  rw [if_pos hprod]
  simp only [List.mem_append, mem_ite_singleton]
  tauto

theorem prod_zone_count_boundary_witness :
    azsFinding ∈ validate_environment_config prodAzs2Config ∧
    azsFinding ∉ validate_environment_config prodAzs3Config := by
  constructor
  · exact (prod_zone_count_boundary prodAzs2Config rfl).mpr (by decide)
  · intro hmem
    exact absurd ((prod_zone_count_boundary prodAzs3Config rfl).mp hmem) (by decide)

/-- C5: for every environment identifier outside the closed set,
get_environment_config returns no configuration but an error whose message
carries the list of valid environment identifiers. -/
theorem unknown_environment_error (pe : ProcEnv) (s : String)
    (hs : s ∉ get_all_environments) :
    get_environment_config pe (some s) =
      .error ("Unsupported environment: " ++ s ++ ". " ++
        "Supported environments: " ++ pyListRepr get_all_environments) ∧
    get_all_environments = ["dev", "staging", "prod"] := by
  have h1 : ¬(s = "dev" ∨ s = "staging" ∨ s = "prod") := by
    simpa [get_all_environments, ENVIRONMENT_CONFIGS, Environment.value] using hs
  push_neg at h1
  have e1 : (s == "dev") = false := beq_eq_false_iff_ne.mpr h1.1
  have e2 : (s == "staging") = false := beq_eq_false_iff_ne.mpr h1.2.1
  have e3 : (s == "prod") = false := beq_eq_false_iff_ne.mpr h1.2.2
  have hlk : ENVIRONMENT_CONFIGS.lookup s = none := by
    simp [ENVIRONMENT_CONFIGS, Environment.value, List.lookup, e1, e2, e3]
  constructor
  · unfold get_environment_config
    have hr : resolveName pe (some s) = s := rfl
    rw [hr, hlk]
  · rfl

theorem unknown_environment_error_witness :
    "qa" ∉ get_all_environments ∧
    get_environment_config (fun _ => none) (some "qa") =
      .error ("Unsupported environment: " ++ "qa" ++ ". " ++
        "Supported environments: " ++ pyListRepr get_all_environments) ∧
    get_all_environments = ["dev", "staging", "prod"] :=
  ⟨by decide, unknown_environment_error (fun _ => none) "qa" (by decide)⟩

/-- C6: writing the same (module_name, logical_name) pair twice within one run
raises DuplicateOutputError, and reading a pair never written raises
MissingOutputError. -/
theorem output_registry_discipline :
    (∀ (r r2 : OutputRegistry) (m l v w : String),
      OutputRegistry.write r m l v = .ok r2 →
      OutputRegistry.write r2 m l w = .error (.DuplicateOutputError m l)) ∧
    (∀ (r : OutputRegistry) (m l : String),
      (m, l) ∉ r.map Prod.fst →
      OutputRegistry.read r m l = .error (.MissingOutputError m l)) := by
  constructor
  · intro r r2 m l v w hw
    unfold OutputRegistry.write at hw ⊢
    split at hw
    · exact absurd hw (by simp)
    · cases hw
      rw [if_pos]
      simp
  · intro r m l hm
    unfold OutputRegistry.read
    have hf : r.find? (fun e => e.1 == (m, l)) = none := by
      rw [List.find?_eq_none]
      intro x hx
      simp only [beq_iff_eq]
      intro hx1
      exact hm (by rw [← hx1]; exact List.mem_map_of_mem Prod.fst hx)
    rw [hf]

theorem output_registry_discipline_witness :
    OutputRegistry.write [(("networking", "vpc-id"), "vpc-123")]
      "networking" "vpc-id" "vpc-456" =
      .error (.DuplicateOutputError "networking" "vpc-id") ∧
    OutputRegistry.read [] "networking" "vpc-id" =
      .error (.MissingOutputError "networking" "vpc-id") := by
  constructor
  · exact output_registry_discipline.1 [] [(("networking", "vpc-id"), "vpc-123")]
      "networking" "vpc-id" "vpc-123" "vpc-456" rfl
  · exact output_registry_discipline.2 [] "networking" "vpc-id" (by decide)

/-- C7: resolution and synthesis are deterministic — two calls of
get_environment_config agreeing on the process-environment variables the code
reads return equal configurations, and synthesis runs from identical
configurations produce identical Parameter Store content. -/
theorem resolution_synthesis_deterministic (pe1 pe2 : ProcEnv)
    (h : ∀ k ∈ envReadKeys, pe1 k = pe2 k) (n : Option String)
    (ids : ResourceIds) :
    get_environment_config pe1 n = get_environment_config pe2 n ∧
    (∀ c1 c2, get_environment_config pe1 n = .ok c1 →
      get_environment_config pe2 n = .ok c2 →
      parameterStoreEntries c1 ids = parameterStoreEntries c2 ids) := by
  have henv := h "CDK_ENVIRONMENT" (by simp [envReadKeys])
  have hacc := h "CDK_DEFAULT_ACCOUNT" (by simp [envReadKeys])
  have hdev := h "DEV_NOTIFICATION_EMAIL" (by simp [envReadKeys])
  have hstg := h "STAGING_NOTIFICATION_EMAIL" (by simp [envReadKeys])
  have hprd := h "PROD_NOTIFICATION_EMAIL" (by simp [envReadKeys])
  have hname : resolveName pe1 n = resolveName pe2 n := by
    cases n <;> simp [resolveName, henv]
  have hmain : get_environment_config pe1 n = get_environment_config pe2 n := by
    unfold get_environment_config
    rw [hname]
    generalize resolveName pe2 n = m
    by_cases hd : m = "dev"
    · rw [hd]
      show Except.ok (_get_dev_config pe1) = Except.ok (_get_dev_config pe2)
      unfold _get_dev_config
      rw [hacc, hdev]
    · by_cases hst : m = "staging"
      · rw [hst]
        show Except.ok (_get_staging_config pe1) = Except.ok (_get_staging_config pe2)
        unfold _get_staging_config
        rw [hacc, hstg]
      · by_cases hp : m = "prod"
        · rw [hp]
          show Except.ok (_get_prod_config pe1) = Except.ok (_get_prod_config pe2)
          unfold _get_prod_config
          rw [hacc, hprd]
        · have e1 : (m == "dev") = false := beq_eq_false_iff_ne.mpr hd
          have e2 : (m == "staging") = false := beq_eq_false_iff_ne.mpr hst
          have e3 : (m == "prod") = false := beq_eq_false_iff_ne.mpr hp
          have hlk : ENVIRONMENT_CONFIGS.lookup m = none := by
            simp [ENVIRONMENT_CONFIGS, Environment.value, List.lookup, e1, e2, e3]
          rw [hlk]
  refine ⟨hmain, fun c1 c2 h1 h2 => ?_⟩
  rw [hmain, h2] at h1
  cases h1
  rfl

theorem resolution_synthesis_deterministic_witness :
    get_environment_config peSampleA (some "dev") =
      get_environment_config peSampleB (some "dev") :=
  (resolution_synthesis_deterministic peSampleA peSampleB
    (by intro k hk; fin_cases hk <;> rfl) (some "dev") sampleIds).1

/-- C8: the tag set applied for environment "dev" includes Criticality = Low
and AutoShutdown = True, and the tag set applied for environment "prod"
includes Criticality = High and BackupRequired = True. -/
theorem vpc_tag_table_dev_and_prod :
    (("Criticality", "Low") ∈ vpcAppliedTags "dev" ∧
     ("AutoShutdown", "True") ∈ vpcAppliedTags "dev") ∧
    (("Criticality", "High") ∈ vpcAppliedTags "prod" ∧
     ("BackupRequired", "True") ∈ vpcAppliedTags "prod") := by
  decide

/-- C9: validation is pure with respect to its argument — the configuration
state threaded through validation is returned unchanged (every section, tag
mapping, feature flag, and custom parameter), and the findings are those of
validate_environment_config. -/
theorem validate_preserves_configuration (c : EnvironmentConfig) :
    validateSt c = (validate_environment_config c, c) ∧
    (validateSt c).2.networking = c.networking ∧
    (validateSt c).2.security = c.security ∧
    (validateSt c).2.monitoring = c.monitoring ∧
    (validateSt c).2.resources = c.resources ∧
    (validateSt c).2.compliance = c.compliance ∧
    (validateSt c).2.cost_optimization = c.cost_optimization ∧
    (validateSt c).2.resource_tags = c.resource_tags ∧
    (validateSt c).2.feature_flags = c.feature_flags ∧
    (validateSt c).2.custom_parameters = c.custom_parameters := by
  have h := validateSt_eq c
  rw [h]
  exact ⟨rfl, rfl, rfl, rfl, rfl, rfl, rfl, rfl, rfl, rfl⟩

/-- C10: EnvironmentConfig default filling is all-or-nothing — the full
default resource-tag table is installed exactly when the supplied resource_tags
mapping is empty, and likewise for feature flags; a non-empty supplied mapping
is left exactly as supplied. -/
theorem post_init_defaults_all_or_nothing (env_name : String)
    (aws_account : Option String) (aws_region : String)
    (networking : NetworkingConfig) (security : SecurityConfig)
    (monitoring : MonitoringConfig) (resources : ResourceConfig)
    (compliance : ComplianceConfig) (cost_optimization : CostOptimizationConfig)
    (resource_tags : List (String × String)) (feature_flags : List (String × Bool))
    (custom_parameters : List (String × String)) :
    ((mkEnvironmentConfig env_name aws_account aws_region networking security
        monitoring resources compliance cost_optimization resource_tags
        feature_flags custom_parameters).resource_tags =
      if resource_tags = [] then
        [("Project", "OptionsStrategyPlatform"), ("Environment", env_name),
         ("Owner", "platform-team"), ("CostCenter", "trading-systems"),
         ("DataResidency", "india"), ("ManagedBy", "CDK"),
         ("Region", aws_region)]
      else resource_tags) ∧
    ((mkEnvironmentConfig env_name aws_account aws_region networking security
        monitoring resources compliance cost_optimization resource_tags
        feature_flags custom_parameters).feature_flags =
      if feature_flags = [] then
        [("enable_api_caching", ["staging", "prod"].contains env_name),
         ("enable_multi_az", env_name == "prod"),
         ("enable_auto_scaling", ["staging", "prod"].contains env_name),
         ("enable_blue_green_deployment", env_name == "prod"),
         ("enable_canary_deployment", env_name == "prod"),
         ("enable_circuit_breaker", true),
         ("enable_rate_limiting", true)]
      else feature_flags) := by
  unfold mkEnvironmentConfig defaultResourceTags defaultFeatureFlags
  constructor
  · cases resource_tags <;> simp
  · cases feature_flags <;> simp

theorem post_init_defaults_all_or_nothing_witness :
    (mkEnvironmentConfig "dev" none "ap-south-1"
      (NetworkingConfig.mk "10.0.0.0/16" 2 true true true true)
      (SecurityConfig.mk false false false false true true true)
      (MonitoringConfig.mk 7 false true false none true)
      (ResourceConfig.mk 512 30 256 512 "db.t3.micro" 20 "cache.t3.micro")
      (ComplianceConfig.mk "ap-south-1" true 7 false true false)
      (CostOptimizationConfig.mk true false true false 30)
      [] [("enable_api_caching", false)] []).resource_tags =
      [("Project", "OptionsStrategyPlatform"), ("Environment", "dev"),
       ("Owner", "platform-team"), ("CostCenter", "trading-systems"),
       ("DataResidency", "india"), ("ManagedBy", "CDK"),
       ("Region", "ap-south-1")] ∧
    (mkEnvironmentConfig "dev" none "ap-south-1"
      (NetworkingConfig.mk "10.0.0.0/16" 2 true true true true)
      (SecurityConfig.mk false false false false true true true)
      (MonitoringConfig.mk 7 false true false none true)
      (ResourceConfig.mk 512 30 256 512 "db.t3.micro" 20 "cache.t3.micro")
      (ComplianceConfig.mk "ap-south-1" true 7 false true false)
      (CostOptimizationConfig.mk true false true false 30)
      [] [("enable_api_caching", false)] []).feature_flags =
      [("enable_api_caching", false)] := by
  have h := post_init_defaults_all_or_nothing "dev" none "ap-south-1"
    (NetworkingConfig.mk "10.0.0.0/16" 2 true true true true)
    (SecurityConfig.mk false false false false true true true)
    (MonitoringConfig.mk 7 false true false none true)
    (ResourceConfig.mk 512 30 256 512 "db.t3.micro" 20 "cache.t3.micro")
    (ComplianceConfig.mk "ap-south-1" true 7 false true false)
    (CostOptimizationConfig.mk true false true false 30)
    [] [("enable_api_caching", false)] []
  constructor
  · rw [h.1]
    rfl
  · rw [h.2]
    rfl
